import Mathlib

/-!
# Verification of the django-password-reset token flows

Shallow embedding of `src/password_reset/views.py`.

The views delegate token construction and verification to Django's
`django.core.signing` module, which is not part of this repository's
sources.  That signing layer is modelled symbolically below (an ideal
MAC: the signature records exactly the data it authenticates, and
verification checks equality), following the spec's description of the
codec.  Everything else (`loads_with_timestamp`, `RecoverDone`,
`Recover`, `Reset`) is translated directly from `views.py`.

Time is modelled as an integer number of seconds; each embedded call
receives the current clock value `now` explicitly.
-/

namespace PasswordReset

/-- JSON-serializable payloads actually signed by the views: a user's
integer primary key, or an identifier string (email / username /
raw form input). -/
inductive Payload where
  | int (n : Int)
  | str (s : String)
deriving DecidableEq, Repr

/-- Modelled from the spec: the signature computed by
`django.core.signing` (absent from src/), described as "an
authenticated signature over (payload, timestamp, salt, Secret)" with
"salts mixed into the signing input".  Symbolic ideal-MAC model: the
signature is the tuple of the authenticated data, and verification
compares tuples. -/
structure Sig where
  secret : String
  salt : String
  payload : Payload
  timestamp : Int
deriving DecidableEq, Repr

/-- A signed token: `\x7bencoded payload, encoded issuance timestamp,
signature\x7d`.  A forged or tampered token is one whose `sig` component
does not match its visible fields. -/
structure Token where
  payload : Payload
  timestamp : Int
  sig : Sig
deriving DecidableEq, Repr

/-- Modelled from the spec: the exceptions of `django.core.signing`.
In Django, `SignatureExpired` is a subclass of `BadSignature` and its
message carries the computed age ("Signature age %s > %s seconds"),
which `loads_with_timestamp` parses back out; we carry the age as
structured data.  An `except signing.BadSignature` clause catches both
constructors; an `except signing.SignatureExpired` clause catches only
`signatureExpired`. -/
inductive SigningError where
  | badSignature
  | signatureExpired (age : Int)
deriving DecidableEq, Repr

/-- Modelled from the spec: `django.core.signing.dumps(payload,
salt=salt)` (absent from src/) — serialize the payload, capture the
current timestamp, sign (payload, timestamp, salt, secret). -/
def dumps (secret : String) (payload : Payload) (salt : String) (now : Int) : Token :=
  { payload := payload, timestamp := now
    sig := ⟨secret, salt, payload, now⟩ }

/-- Modelled from the spec: `django.core.signing.loads(token,
salt=salt, max_age=max_age)` (absent from src/) — raise `BadSignature`
unless the signature authenticates the visible fields under (secret,
salt); when a max age is given, raise `SignatureExpired age` when
`age = now - timestamp > max_age`; otherwise return the payload. -/
def loads (secret : String) (token : Token) (salt : String)
    (max_age : Option Int) (now : Int) : Except SigningError Payload :=
  if token.sig = ⟨secret, salt, token.payload, token.timestamp⟩ then
    match max_age with
    | none => .ok token.payload
    | some a =>
      let age := now - token.timestamp
      if age > a then .error (.signatureExpired age) else .ok token.payload
  else
    .error .badSignature

/- `SaltMixin` (views.py lines 17-19): the two salt class attributes
shared by the recovery and reset views. -/
namespace SaltMixin

def salt : String := "password_recovery"

def url_salt : String := "password_recovery_url"

end SaltMixin

/-- `loads_with_timestamp` (views.py lines 22-30).  Calls
`signing.loads(value, salt=salt, max_age=-1)`; if that raises
`SignatureExpired` with age `a`, returns
`(timezone.now() - timedelta(seconds=a), signing.loads(value, salt=salt))`.
If the forced call succeeds instead, the Python function falls off the
end and returns `None` (modelled as `.ok none`); a `BadSignature` from
either call propagates to the caller. -/
def loads_with_timestamp (secret : String) (token : Token) (salt : String)
    (now : Int) : Except SigningError (Option (Int × Payload)) :=
  match loads secret token salt (some (-1)) now with
  | .ok _ => .ok none
  | .error .badSignature => .error .badSignature
  | .error (.signatureExpired age) =>
    match loads secret token salt none now with
    | .ok payload => .ok (some (now - age, payload))
    | .error e => .error e

/-- A user row of the external account store (`django.contrib.auth.models.User`). -/
structure UserRec where
  pk : Int
  username : String
  email : String
deriving DecidableEq, Repr

/-- `get_object_or_404(User, pk=pk)` against a finite account store:
the first user whose primary key equals the token payload, if any. -/
def get_object_or_404 (users : List UserRec) (pk : Payload) : Option UserRec :=
  users.find? (fun u => decide (Payload.int u.pk = pk))

/-- Outcome of `RecoverDone.get_context_data` (views.py lines 37-46):
either the rendered context (with or without the `timestamp`/`email`
entries), an `Http404`, or the uncaught `TypeError` raised when the
tuple-unpacking assignment is given the `None` that
`loads_with_timestamp` returns on its fall-through branch. -/
inductive RecoverDoneOutcome where
  | http404
  | ctx (timestamp_email : Option (Int × Payload))
  | typeError
deriving DecidableEq, Repr

/-- `RecoverDone.get_context_data` (views.py lines 37-46): unpack
`loads_with_timestamp(kwargs['signature'], salt=url_salt)` into
`ctx['timestamp'], ctx['email']`; on `BadSignature`, raise `Http404`
when `fail_noexistent_user` holds, else return the context without
those entries. -/
def RecoverDone.get_context_data (secret : String) (fail_noexistent_user : Bool)
    (signature : Token) (now : Int) : RecoverDoneOutcome :=
  match loads_with_timestamp secret signature SaltMixin.url_salt now with
  | .ok (some te) => .ctx (some te)
  | .ok none => .typeError
  | .error _ => if fail_noexistent_user then .http404 else .ctx none

/-- The identifier disclosed in the acknowledgement token
(views.py lines 92-100): the username when the view searches only by
username, else the email. -/
def Recover.disclosed_identifier (search_fields : List String) (u : UserRec) : String :=
  if search_fields.length = 1 ∧ search_fields.head? = some "username" then
    u.username
  else
    u.email

/-- The context passed to the recovery email
(`Recover.get_email_context`, views.py lines 74-80): the user and the
reset token `signing.dumps(user.pk, salt=self.salt)`.  The site and
secure-channel entries are framework glue and omitted. -/
structure EmailContext where
  user : UserRec
  token : Token
deriving DecidableEq, Repr

def Recover.get_email_context (secret : String) (u : UserRec) (now : Int) : EmailContext :=
  { user := u, token := dumps secret (.int u.pk) SaltMixin.salt now }

/-- Observable outcome of `Recover.form_valid`: the notifications
passed to `send_templated_mail` (recipient list and context) and the
acknowledgement token stored in `self.mail_signature`. -/
structure RecoverOutcome where
  sent : List (List String × EmailContext)
  mail_signature : Token
deriving DecidableEq, Repr

/-- `Recover.form_valid` (views.py lines 88-105): when the form
resolved a user, send one templated mail to the user's email and sign
the disclosed identifier under `url_salt`; otherwise send nothing and
sign the raw form input under the decoy salt `'fake-send'`. -/
def Recover.form_valid (secret : String) (search_fields : List String)
    (user : Option UserRec) (username_or_email : String) (now : Int) : RecoverOutcome :=
  match user with
  | some u =>
    { sent := [([u.email], Recover.get_email_context secret u now)]
      mail_signature :=
        dumps secret (.str (Recover.disclosed_identifier search_fields u))
          SaltMixin.url_salt now }
  | none =>
    { sent := []
      mail_signature := dumps secret (.str username_or_email) "fake-send" now }

/-- `Recover.get_success_url` (views.py lines 58-59):
`reverse('password_reset_sent', args=[self.mail_signature])`, modelled
as the URL name paired with the token embedded as its argument. -/
def Recover.get_success_url (mail_signature : Token) : String × Token :=
  ("password_reset_sent", mail_signature)

/-- `Reset.token_expires` (views.py line 111): `3600 * 48`, two days. -/
def Reset.token_expires : Int := 3600 * 48

/-- Outcome of `Reset.dispatch`: the rendered `invalid=True` page, an
`Http404` from `get_object_or_404`, or normal dispatch with the
resolved user. -/
inductive ResetOutcome where
  | invalid
  | http404
  | proceed (u : UserRec)
deriving DecidableEq, Repr

/-- `Reset.dispatch` (views.py lines 115-127): load the token with
`max_age=token_expires` under `salt`; on `BadSignature` (which in
Django also catches its subclass `SignatureExpired`) render the
invalid page; otherwise resolve the payload as a user pk via
`get_object_or_404` and proceed. -/
def Reset.dispatch (secret : String) (users : List UserRec) (token : Token)
    (now : Int) : ResetOutcome :=
  match loads secret token SaltMixin.salt (some Reset.token_expires) now with
  | .error _ => .invalid
  | .ok pk =>
    match get_object_or_404 users pk with
    | none => .http404
    | some u => .proceed u

end PasswordReset

namespace PasswordReset

/-- Helper: a token whose signature does not authenticate its visible
fields under (secret, salt) makes `loads_with_timestamp` propagate
`BadSignature`. -/
theorem lwt_error_of_bad_sig (secret : String) (token : Token) (salt : String)
    (now : Int) (h : token.sig ≠ ⟨secret, salt, token.payload, token.timestamp⟩) :
    loads_with_timestamp secret token salt now = .error .badSignature := by
  simp [loads_with_timestamp, loads, h]

/-- Claim C1: the spec requires that on the branch where
`signing.loads(value, salt, max_age=-1)` succeeds, `loads_with_timestamp`
still returns the (timestamp, payload) pair.  The code instead falls
off the end of the function and returns `None`.  This theorem
evaluates the code at a failing input: an authentic token issued at
time 100 and inspected at time 98 (two seconds of clock skew, so the
forced verification does not raise), where the function yields
`.ok none` — no timestamp or payload — contradicting both the claim
and the function docstring. -/
theorem loads_with_timestamp_valid_branch_returns_none :
    loads_with_timestamp "k"
        (dumps "k" (.str "alice@example.com") SaltMixin.url_salt 100)
        SaltMixin.url_salt 98 = .ok none := rfl

/-- Claim C2: for every payload, salt and signing time `t0`, invoking
`loads_with_timestamp` on the token at any time `t0 + d` with `d ≥ 0`
returns exactly the issuance time `t0` and the original payload, even
though the forced `max_age = -1` verification classifies the token as
expired. -/
theorem loads_with_timestamp_recovers_issuedAt (secret : String) (payload : Payload)
    (salt : String) (t0 d : Int) (h : 0 ≤ d) :
    loads_with_timestamp secret (dumps secret payload salt t0) salt (t0 + d) =
      .ok (some (t0, payload)) := by
  have h2 : (-1 : Int) < d := by omega
  simp [loads_with_timestamp, loads, dumps, h2]

/-- Witness for C2 at a concrete input: payload signed at time 50 and
recovered 10000 seconds later. -/
theorem loads_with_timestamp_recovers_issuedAt_witness :
    (0 : Int) ≤ 10000 ∧
      loads_with_timestamp "k" (dumps "k" (.str "p@example.com") "s" 50) "s"
          (50 + 10000) = .ok (some (50, .str "p@example.com")) :=
  ⟨by decide,
   loads_with_timestamp_recovers_issuedAt "k" (.str "p@example.com") "s" 50 10000
     (by decide)⟩

/-- Claim C3: for every forged, tampered or malformed token (its
signature does not authenticate its visible fields under the given
salt and secret), `loads_with_timestamp` propagates a
`BadSignature`-class failure and returns no timestamp or payload
data. -/
theorem loads_with_timestamp_propagates_badSignature (secret : String)
    (token : Token) (salt : String) (now : Int)
    (h : token.sig ≠ ⟨secret, salt, token.payload, token.timestamp⟩) :
    loads_with_timestamp secret token salt now = .error .badSignature :=
  lwt_error_of_bad_sig secret token salt now h

/-- Witness for C3 at a concrete forged token: its signature was made
under a different salt, so it does not authenticate. -/
theorem loads_with_timestamp_propagates_badSignature_witness :
    (Token.mk (.str "x") 0 ⟨"k", "evil", .str "x", 0⟩).sig ≠
        ⟨"k", SaltMixin.url_salt, .str "x", 0⟩ ∧
      loads_with_timestamp "k" (Token.mk (.str "x") 0 ⟨"k", "evil", .str "x", 0⟩)
          SaltMixin.url_salt 7 = .error .badSignature :=
  ⟨by decide,
   loads_with_timestamp_propagates_badSignature "k"
     (Token.mk (.str "x") 0 ⟨"k", "evil", .str "x", 0⟩) SaltMixin.url_salt 7
     (by decide)⟩

/-- Claim C4: domain separation — for every payload and every pair of
distinct salts, a token signed under the first salt verifies as
`Invalid` (a `BadSignature`-class outcome) under the second salt,
never as valid or merely expired, whatever max-age policy is used. -/
theorem domain_separation (secret : String) (p : Payload) (s1 s2 : String)
    (t : Int) (max_age : Option Int) (now : Int) (h : s1 ≠ s2) :
    loads secret (dumps secret p s1 t) s2 max_age now = .error .badSignature := by
  simp [loads, dumps, Sig.mk.injEq, h]

/-- Witness for C4 at the concrete salts of the views: a decoy token
(salt `'fake-send'`) never verifies under the acknowledgement-URL salt,
and an acknowledgement-URL token never verifies under the reset salt. -/
theorem domain_separation_witness :
    loads "k" (dumps "k" (.str "a") "fake-send" 3) SaltMixin.url_salt none 3 =
        .error .badSignature ∧
      loads "k" (dumps "k" (.str "a") SaltMixin.url_salt 3) SaltMixin.salt
          (some Reset.token_expires) 3 = .error .badSignature :=
  ⟨domain_separation "k" (.str "a") "fake-send" SaltMixin.url_salt 3 none 3
     (by decide),
   domain_separation "k" (.str "a") SaltMixin.url_salt SaltMixin.salt 3
     (some Reset.token_expires) 3 (by decide)⟩

/-- Claim C5: round-trip — verifying `dumps secret p s t` under the
same salt `s`, with no max-age bound or a sufficient one, yields the
original payload `p`, and the token carries the signing time `t` as
its issuance timestamp. -/
theorem sign_verify_round_trip (secret : String) (p : Payload) (s : String)
    (t now : Int) (max_age : Option Int)
    (h : max_age = none ∨ ∃ a, max_age = some a ∧ now - t ≤ a) :
    loads secret (dumps secret p s t) s max_age now = .ok p ∧
      (dumps secret p s t).timestamp = t := by
  refine ⟨?_, rfl⟩
  rcases h with h | ⟨a, rfl, ha⟩
  · subst h
    simp [loads, dumps]
  · have h2 : ¬ now - t > a := by omega
    simp [loads, dumps, h2]

/-- Witness for C5 at a concrete input: a reset token over user pk 7
under the reset salt, presented 100 seconds later within the 48-hour
bound, decodes to the same pk. -/
theorem sign_verify_round_trip_witness :
    ((some Reset.token_expires : Option Int) = none ∨
        ∃ a, (some Reset.token_expires : Option Int) = some a ∧
          (100 : Int) - 0 ≤ a) ∧
      (loads "k" (dumps "k" (.int 7) SaltMixin.salt 0) SaltMixin.salt
            (some Reset.token_expires) 100 = .ok (.int 7) ∧
        (dumps "k" (.int 7) SaltMixin.salt 0).timestamp = 0) :=
  ⟨Or.inr ⟨Reset.token_expires, rfl, by decide⟩,
   sign_verify_round_trip "k" (.int 7) SaltMixin.salt 0 100
     (some Reset.token_expires)
     (Or.inr ⟨Reset.token_expires, rfl, by decide⟩)⟩

/-- Claim C6: the identifier disclosed in the acknowledgement token is
the username exactly when the configured search fields are the
one-element list containing `'username'`; for every other
configuration it is the email address. -/
theorem disclosed_identifier_username_iff (sf : List String) (u : UserRec) :
    Recover.disclosed_identifier sf u =
      if sf = ["username"] then u.username else u.email := by
  match sf with
  | [] => simp [Recover.disclosed_identifier]
  | [x] =>
    by_cases hx : x = "username" <;>
      simp [Recover.disclosed_identifier, hx]
  | x :: y :: rest =>
    simp [Recover.disclosed_identifier]

/-- Claim C7: `form_valid` produces an acknowledgement token in both
branches and the success URL has the same shape around it: on a match
exactly one mail is sent (to the matched email, with the reset-token
context) and the disclosed identifier is signed under `url_salt`; on
no match nothing is sent and the raw form input is signed under the
decoy salt `'fake-send'`. -/
theorem form_valid_unconditional_ack_token (secret : String) (sf : List String)
    (user : Option UserRec) (input : String) (now : Int) :
    (∀ u, user = some u →
      (Recover.form_valid secret sf user input now).sent =
          [([u.email], Recover.get_email_context secret u now)] ∧
        (Recover.form_valid secret sf user input now).mail_signature =
          dumps secret (.str (Recover.disclosed_identifier sf u))
            SaltMixin.url_salt now) ∧
    (user = none →
      (Recover.form_valid secret sf user input now).sent = [] ∧
        (Recover.form_valid secret sf user input now).mail_signature =
          dumps secret (.str input) "fake-send" now) ∧
    Recover.get_success_url (Recover.form_valid secret sf user input now).mail_signature =
      ("password_reset_sent",
        (Recover.form_valid secret sf user input now).mail_signature) := by
  refine ⟨?_, ?_, rfl⟩
  · rintro u rfl
    exact ⟨rfl, rfl⟩
  · rintro rfl
    exact ⟨rfl, rfl⟩

/-- Witness for C7 at concrete inputs: the no-match branch signs the
raw input under the decoy salt and sends nothing; the match branch
sends exactly one mail to the matched address. -/
theorem form_valid_unconditional_ack_token_witness :
    ((Recover.form_valid "k" ["username", "email"] none "alice" 7).sent = [] ∧
      (Recover.form_valid "k" ["username", "email"] none "alice" 7).mail_signature =
        dumps "k" (.str "alice") "fake-send" 7) ∧
    (Recover.form_valid "k" ["username", "email"]
        (some ⟨1, "bob", "bob@example.com"⟩) "bob" 7).sent =
      [(["bob@example.com"],
        Recover.get_email_context "k" ⟨1, "bob", "bob@example.com"⟩ 7)] :=
  ⟨(form_valid_unconditional_ack_token "k" ["username", "email"] none "alice" 7).2.1
     rfl,
   ((form_valid_unconditional_ack_token "k" ["username", "email"]
      (some ⟨1, "bob", "bob@example.com"⟩) "bob" 7).1
      ⟨1, "bob", "bob@example.com"⟩ rfl).1⟩

/-- Claim C8: the reset flow verifies against a maximum age of exactly
172800 seconds, a forged token renders the invalid page, and any token
older than the bound renders the invalid page — never the authorized
dispatch — with no exception escaping. -/
theorem reset_dispatch_expiry_policy (secret : String) (users : List UserRec)
    (token : Token) (now : Int) :
    Reset.token_expires = 172800 ∧
    (token.sig ≠ ⟨secret, SaltMixin.salt, token.payload, token.timestamp⟩ →
      Reset.dispatch secret users token now = .invalid) ∧
    (now - token.timestamp > 172800 →
      Reset.dispatch secret users token now = .invalid) := by
  refine ⟨rfl, ?_, ?_⟩
  · intro h
    simp [Reset.dispatch, loads, h]
  · intro h
    by_cases hs : token.sig = ⟨secret, SaltMixin.salt, token.payload, token.timestamp⟩
    · have h2 : now - token.timestamp > Reset.token_expires := by
        simp only [Reset.token_expires]
        omega
      simp [Reset.dispatch, loads, hs, h2]
    · simp [Reset.dispatch, loads, hs]

/-- Witness for C8 at concrete inputs: an authentic reset token issued
at time 0 and presented at time 172801 renders the invalid page, as
does a token forged under the wrong salt. -/
theorem reset_dispatch_expiry_policy_witness :
    Reset.dispatch "k" [] (dumps "k" (.int 5) SaltMixin.salt 0) 172801 = .invalid ∧
      Reset.dispatch "k" [] (dumps "k" (.int 5) "evil" 0) 172800 = .invalid :=
  ⟨(reset_dispatch_expiry_policy "k" [] (dumps "k" (.int 5) SaltMixin.salt 0)
      172801).2.2 (by decide),
   (reset_dispatch_expiry_policy "k" [] (dumps "k" (.int 5) "evil" 0)
      172800).2.1 (by decide)⟩

/-- Claim C9: an authentic, unexpired reset token whose payload pk
matches no account makes `Reset.dispatch` raise `Http404`, which is
observably different from the invalid-token rendering. -/
theorem reset_dispatch_missing_user_http404 (secret : String)
    (users : List UserRec) (pk t now : Int)
    (hage : now - t ≤ Reset.token_expires)
    (hmiss : get_object_or_404 users (.int pk) = none) :
    Reset.dispatch secret users (dumps secret (.int pk) SaltMixin.salt t) now =
        .http404 ∧
      Reset.dispatch secret users (dumps secret (.int pk) SaltMixin.salt t) now ≠
        .invalid := by
  have h2 : ¬ now - t > Reset.token_expires := by omega
  have hload : loads secret (dumps secret (.int pk) SaltMixin.salt t)
      SaltMixin.salt (some Reset.token_expires) now = .ok (.int pk) := by
    simp [loads, dumps, h2]
  refine ⟨?_, ?_⟩ <;> simp [Reset.dispatch, hload, hmiss]

/-- Witness for C9 at a concrete input: an empty account store and an
authentic token over pk 3 presented 100 seconds after issuance. -/
theorem reset_dispatch_missing_user_http404_witness :
    ((100 : Int) - 0 ≤ Reset.token_expires ∧
        get_object_or_404 [] (.int 3) = none) ∧
      (Reset.dispatch "k" [] (dumps "k" (.int 3) SaltMixin.salt 0) 100 = .http404 ∧
        Reset.dispatch "k" [] (dumps "k" (.int 3) SaltMixin.salt 0) 100 ≠ .invalid) :=
  ⟨⟨by decide, rfl⟩,
   reset_dispatch_missing_user_http404 "k" [] 3 0 100 (by decide) rfl⟩

/-- Claim C10: a decoy acknowledgement token (signed under
`'fake-send'`) presented to the confirmation page always fails
verification against `url_salt`: with `fail_noexistent_user` set it
raises `Http404`, and with it unset the rendered context lacks the
timestamp and email entries. -/
theorem recover_done_decoy_distinguishes (secret input : String) (t now : Int)
    (fnu : Bool) :
    RecoverDone.get_context_data secret fnu
        (dumps secret (.str input) "fake-send" t) now =
      if fnu then .http404 else .ctx none := by
  have hne : ("fake-send" : String) ≠ SaltMixin.url_salt := by decide
  have hbad : loads_with_timestamp secret (dumps secret (.str input) "fake-send" t)
      SaltMixin.url_salt now = .error .badSignature := by
    apply lwt_error_of_bad_sig
    simp [dumps, Sig.mk.injEq, hne]
  simp [RecoverDone.get_context_data, hbad]

end PasswordReset
